import Mathlib

/-!
# Verification of the recommendation pipeline in `src/app.py`

Shallow embedding of the reproducible core of the app:

* the data model (`ProductRecommendation`, `RecommendationResponse`,
  `ProductDisplay`) and the fixed `PRODUCT_CATALOG`;
* `validate_api_key` (API-key format check);
* `init_openai_client` and the save-button handler in `main`
  (session state, connection test);
* `get_recommendations_with_products` (reply parsing, catalog join,
  confidence sort);
* the rendering decision in `main` (`if products:`).

Embedding conventions:

* Python floats are modelled as `ℚ`.  The pipeline only copies and
  compares confidence values (it never does arithmetic on them), and all
  concrete values appearing in the properties (0.9, 0.95, 1.5, ...) are
  exactly representable, so the order structure is preserved faithfully.
* A Python dict is an insertion-ordered association list; the catalog
  dict becomes `List (String × List CatalogEntry)` and subscripting with
  a string key becomes `catalogLookup`.
* Exceptions are modelled by `Option`: a function body wrapped in
  `try/except` that returns Python `None` on any exception becomes a
  function into `Option _` returning `none` on the failing paths.
* The external service is modelled by parameters: `accept` says whether
  the connection test succeeds for a key, and the reply of the
  recommendation request is passed in as `Option Json` (`none` is a
  transport error or a body that `json.loads` rejects).
* `list.sort(key=lambda x: x.confidence, reverse=True)` is a stable sort
  by confidence descending.  It is modelled by `List.insertionSort` with
  the relation `confDesc`; insertion sort with this relation is stable
  and sorted, and a stable sort for a given total preorder is unique as
  a function, so this is extensionally the sort the code performs.
-/

/-- Code points of `pat` are an initial segment of the code points of
`s`: Python's `s.startswith(pat)` for plain strings. -/
def pyStartsWith (s pat : String) : Bool :=
  pat.data.isPrefixOf s.data

/-- `class ProductRecommendation(BaseModel)` (src/app.py lines 15-18). -/
structure ProductRecommendation where
  category : String
  reason : String
  confidence : ℚ
deriving DecidableEq

/-- `class RecommendationResponse(BaseModel)` (src/app.py lines 20-21). -/
structure RecommendationResponse where
  recommendations : List ProductRecommendation
deriving DecidableEq

/-- `class ProductDisplay(BaseModel)` (src/app.py lines 23-29). -/
structure ProductDisplay where
  category : String
  product : String
  price : ℚ
  reason : String
  confidence : ℚ
  image : String
deriving DecidableEq

/-- One record of the catalog dict: `{"id": ..., "name": ..., "price":
..., "description": ..., "image": ...}`. -/
structure CatalogEntry where
  id : String
  name : String
  price : ℚ
  description : String
  image : String
deriving DecidableEq

/-- `PRODUCT_CATALOG` (src/app.py lines 32-48), as an insertion-ordered
association list. -/
def PRODUCT_CATALOG : List (String × List CatalogEntry) :=
  [("Sports & Fitness",
    [⟨"S001", "Nike Air Zoom Pegasus", 4500, "รองเท้าวิ่งระดับพรีเมียม",
      "https://picsum.photos/300/200?random=1"⟩,
     ⟨"S002", "Fitbit Charge 5", 6900, "สมาร์ทวอทช์สำหรับออกกำลังกาย",
      "https://picsum.photos/300/200?random=2"⟩,
     ⟨"S003", "Yoga Mat Premium", 1200, "เสื่อโยคะคุณภาพสูง",
      "https://picsum.photos/300/200?random=3"⟩]),
   ("Photography",
    [⟨"P001", "Sony A7 III", 59900, "กล้อง Mirrorless ระดับมืออาชีพ",
      "https://picsum.photos/300/200?random=4"⟩,
     ⟨"P002", "DJI Mini 3 Pro", 29900, "โดรนถ่ายภาพขนาดพกพา",
      "https://picsum.photos/300/200?random=5"⟩,
     ⟨"P003", "Peak Design Backpack", 8900, "กระเป๋ากล้องระดับพรีเมียม",
      "https://picsum.photos/300/200?random=6"⟩]),
   ("Cooking",
    [⟨"C001", "Instant Pot Duo", 3900, "หม้อทำอาหารอเนกประสงค์",
      "https://picsum.photos/300/200?random=7"⟩,
     ⟨"C002", "Vitamix Blender", 15900, "เครื่องปั่นระดับมืออาชีพ",
      "https://picsum.photos/300/200?random=8"⟩,
     ⟨"C003", "Kitchen Scale Digital", 890, "เครื่องชั่งดิจิตอลแม่นยำสูง",
      "https://picsum.photos/300/200?random=9"⟩])]

/-- `validate_api_key` (src/app.py lines 76-86): fail if the key does
not start with `sk-`, fail if its length is below 20, succeed
otherwise.  Python `len` on a string counts code points, i.e. the
length of `String.data`. -/
def validate_api_key (api_key : String) : Bool :=
  if ¬ pyStartsWith api_key "sk-" then false
  else if api_key.data.length < 20 then false
  else true

/-- Subscripting the string-keyed catalog dict: `PRODUCT_CATALOG[c]`
when `c in PRODUCT_CATALOG`, i.e. the value of the first (unique) pair
whose key is `c`. -/
def catalogLookup (catalog : List (String × List CatalogEntry)) (c : String) :
    Option (List CatalogEntry) :=
  (catalog.find? (fun kv => kv.1 == c)).map Prod.snd

/-- The `ProductDisplay(...)` constructor call in the expansion loop
(src/app.py lines 161-168): category and confidence come from the
recommendation, product name, price and image from the catalog entry,
and the reason is the f-string joining the recommendation's reason and
the entry's description with `" - "`. -/
def displayOfEntry (rec : ProductRecommendation) (p : CatalogEntry) : ProductDisplay :=
  { category := rec.category
    product := p.name
    price := p.price
    reason := rec.reason ++ " - " ++ p.description
    confidence := rec.confidence
    image := p.image }

/-- The body of the expansion loop for one recommendation (src/app.py
lines 156-169): if `rec["category"] in PRODUCT_CATALOG`, one
`ProductDisplay` per product of that category, in catalog order;
otherwise nothing. -/
def expandRec (catalog : List (String × List CatalogEntry))
    (rec : ProductRecommendation) : List ProductDisplay :=
  match catalogLookup catalog rec.category with
  | some products => products.map (displayOfEntry rec)
  | none => []

/-- All display items appended by the loop, in loop order
(recommendations in reply order, entries in catalog order): the
contents of `all_product_recommendations` before the final sort. -/
def preSortExpansion (recs : List ProductRecommendation)
    (catalog : List (String × List CatalogEntry)) : List ProductDisplay :=
  recs.flatMap (expandRec catalog)

/-- The sort relation of line 172: higher confidence first
(`key=lambda x: x.confidence, reverse=True`). -/
def confDesc (a b : ProductDisplay) : Prop :=
  b.confidence ≤ a.confidence

instance : DecidableRel confDesc :=
  fun a b => inferInstanceAs (Decidable (b.confidence ≤ a.confidence))

instance : IsTotal ProductDisplay confDesc :=
  ⟨fun a b => le_total b.confidence a.confidence⟩

instance : IsTrans ProductDisplay confDesc :=
  ⟨fun _ _ _ hab hbc => le_trans hbc hab⟩

/-- The mapper on parsed recommendations (src/app.py lines 155-172):
expand every catalog-matched recommendation into display items, then
stable-sort the whole list by confidence descending. -/
def expand (recs : List ProductRecommendation)
    (catalog : List (String × List CatalogEntry)) : List ProductDisplay :=
  (preSortExpansion recs catalog).insertionSort confDesc

/-- Exact rational 0.9, written in normalized form so that kernel
evaluation (`decide`) works on it. -/
def conf09 : ℚ := Rat.mk' 9 10 (by decide) (by decide)

/-- Exact rational 0.95. -/
def conf095 : ℚ := Rat.mk' 19 20 (by decide) (by decide)

/-- Exact rational 1.5 (a confidence outside `[0, 1]`). -/
def conf15 : ℚ := Rat.mk' 3 2 (by decide) (by decide)

/-- Exact rational 0.5. -/
def conf05 : ℚ := Rat.mk' 1 2 (by decide) (by decide)

/-- A JSON value, the result of `json.loads` on the reply body. -/
inductive Json where
  | null : Json
  | bool : Bool → Json
  | num : ℚ → Json
  | str : String → Json
  | arr : List Json → Json
  | obj : List (String × Json) → Json

/-- Python subscripting `v[k]` with a string key: the value under `k`
when `v` is a dict containing it; `none` models the KeyError (key
absent) or TypeError (not a dict) the code's `except` catches. -/
def Json.getKey : Json → String → Option Json
  | .obj kvs, k => (kvs.find? (fun kv => kv.1 == k)).map Prod.snd
  | _, _ => none

/-- Python `for rec in v`: the sequence of elements iteration yields —
a list yields its elements, a dict its keys, a string its one-character
substrings; other values are not iterable (TypeError, `none`). -/
def Json.iterElems : Json → Option (List Json)
  | .arr xs => some xs
  | .obj kvs => some (kvs.map (fun kv => Json.str kv.1))
  | .str s => some (s.data.map (fun c => Json.str (String.mk [c])))
  | _ => none

/-- One iteration of the expansion loop (src/app.py lines 156-169) on a
raw JSON element `rec`.  Python first evaluates `rec["category"] in
PRODUCT_CATALOG` — KeyError if `"category"` is absent or `rec` is not a
dict, TypeError if the value is unhashable (a list or dict); a hashable
non-string value is never a key of the string-keyed dict, so the
element is skipped.  A matched element then reads `rec["reason"]` and
`rec["confidence"]` (KeyError if absent) and builds the pydantic
`ProductDisplay` records, which require a string reason and a numeric
confidence.  (Pydantic's numeric coercion of digit strings and
booleans is not modelled; no property depends on it.)  `none` models an
exception escaping to the `except` handler. -/
def expandJsonRec (catalog : List (String × List CatalogEntry)) (rec : Json) :
    Option (List ProductDisplay) :=
  match rec.getKey "category" with
  | none => none
  | some (Json.str c) =>
    match catalogLookup catalog c with
    | none => some []
    | some products =>
      match rec.getKey "reason", rec.getKey "confidence" with
      | some (Json.str r), some (Json.num conf) =>
        some (products.map (displayOfEntry ⟨c, r, conf⟩))
      | _, _ => none
  | some (Json.arr _) => none
  | some (Json.obj _) => none
  | some _ => some []

/-- `get_recommendations_with_products` (src/app.py lines 118-180),
with the external call abstracted into its observable result: `reply =
none` models a transport error or a body `json.loads` rejects, `some
result` the parsed JSON reply.  The whole body runs in one `try` whose
`except` returns Python `None` (here `none`); otherwise the reply's
`recommendations` field is iterated, expanded against the catalog and
stable-sorted by confidence descending. -/
def get_recommendations_with_products
    (catalog : List (String × List CatalogEntry)) (reply : Option Json) :
    Option (List ProductDisplay) :=
  match reply with
  | none => none
  | some result =>
    match result.getKey "recommendations" with
    | none => none
    | some recsJ =>
      match recsJ.iterElems with
      | none => none
      | some elems =>
        match elems.mapM (expandJsonRec catalog) with
        | none => none
        | some lists => some (lists.flatten.insertionSort confDesc)

/-- What the user sees after the recommendation button handler
(src/app.py lines 367-370). -/
inductive RenderOutcome where
  /-- `render_product_cards(products)`: the product cards. -/
  | cards : List ProductDisplay → RenderOutcome
  /-- `st.error(...)`: the "cannot generate recommendations, try
  again" message. -/
  | unavailable : RenderOutcome
deriving DecidableEq

/-- The dispatch `if products: ... else: st.error(...)` (src/app.py
lines 367-370).  Python truthiness: `None` and the empty list are both
falsy, every non-empty list is truthy. -/
def renderDecision (products : Option (List ProductDisplay)) : RenderOutcome :=
  match products with
  | some (p :: ps) => RenderOutcome.cards (p :: ps)
  | some [] => RenderOutcome.unavailable
  | none => RenderOutcome.unavailable

/-- The handle `OpenAI(api_key=...)` wraps: a client bound to the
submitted key. -/
structure Client where
  api_key : String
deriving DecidableEq

/-- The slice of `st.session_state` the pipeline uses (src/app.py
lines 92, 283, 287): the stored key and the cached client handle. -/
structure SessionState where
  openai_api_key : Option String
  client : Option Client
deriving DecidableEq

/-- An observable call to the external service. -/
inductive ExtCall where
  /-- The `chat.completions.create(..., "Test connection", ...)`
  round-trip of `init_openai_client` for a given key. -/
  | connectionTest : String → ExtCall
deriving DecidableEq

/-- `init_openai_client` (src/app.py lines 89-116): read the key from
session state (empty/absent → `None` without any call), build the
client and run one connection-test round-trip; `accept key = false`
models the round-trip raising (auth or transport error), in which case
the `except` handler returns `None` and the handle is dropped.  The
second component lists the external calls made. -/
def init_openai_client (accept : String → Bool) (s : SessionState) :
    Option Client × List ExtCall :=
  match s.openai_api_key with
  | none => (none, [])
  | some key =>
    if key = "" then (none, [])
    else if accept key then (some ⟨key⟩, [ExtCall.connectionTest key])
    else (none, [ExtCall.connectionTest key])

/-- The save-button handler in `main` (src/app.py lines 275-289):
empty key → warning only; key failing `validate_api_key` → format
error only; otherwise store the key, run `init_openai_client`, and
cache the client in session state only when initialization returned a
handle. -/
def saveApiKeyClick (accept : String → Bool) (api_key : String)
    (s : SessionState) : SessionState × List ExtCall :=
  if api_key = "" then (s, [])
  else if ¬ validate_api_key api_key then (s, [])
  else
    let s1 : SessionState := { s with openai_api_key := some api_key }
    match init_openai_client accept s1 with
    | (some c, calls) => ({ s1 with client := some c }, calls)
    | (none, calls) => (s1, calls)

/-- A well-formed reply whose only recommended category is absent from
the catalog. -/
def gardeningReply : Json :=
  Json.obj [("recommendations", Json.arr
    [Json.obj [("category", Json.str "Gardening"),
               ("reason", Json.str "ชอบปลูกต้นไม้"),
               ("confidence", Json.num conf09)]])]

theorem conf09_eq : conf09 = 0.9 := by
  rw [conf09, Rat.mk'_eq_divInt, Rat.divInt_eq_div]; norm_num

theorem conf095_eq : conf095 = 0.95 := by
  rw [conf095, Rat.mk'_eq_divInt, Rat.divInt_eq_div]; norm_num

theorem conf15_eq : conf15 = 1.5 := by
  rw [conf15, Rat.mk'_eq_divInt, Rat.divInt_eq_div]; norm_num

theorem conf05_eq : conf05 = 0.5 := by
  rw [conf05, Rat.mk'_eq_divInt, Rat.divInt_eq_div]; norm_num

/-- C2: `validate_api_key` returns false exactly when the string does
not start with the literal `sk-` or its code-point length is below 20,
and returns true otherwise; in particular it returns true on
`sk-abcdefghijklmnopqrst`. -/
theorem C2_validate_api_key_format_rule :
    (∀ s : String, validate_api_key s =
      (pyStartsWith s "sk-" && !(decide (s.data.length < 20)))) ∧
    validate_api_key "sk-abcdefghijklmnopqrst" = true := by
  refine ⟨fun s => ?_, by decide⟩
  unfold validate_api_key
  by_cases h1 : pyStartsWith s "sk-" <;> by_cases h2 : s.data.length < 20 <;>
    simp [h1, h2]

/-- C3: a recommendation whose category is a catalog key expands to
exactly one display item per catalog entry of that category — all
entries, in catalog order — with reason `rec.reason ++ " - " ++
entry.description` and the confidence copied unchanged; concretely,
the single Cooking recommendation with reason `r1` and confidence 0.9
yields exactly the three Cooking display items, each with confidence
0.9, in catalog order. -/
theorem C3_matched_category_expansion :
    (∀ (catalog : List (String × List CatalogEntry))
        (rec : ProductRecommendation) (products : List CatalogEntry),
        catalogLookup catalog rec.category = some products →
        expandRec catalog rec = products.map (fun p =>
          { category := rec.category
            product := p.name
            price := p.price
            reason := rec.reason ++ " - " ++ p.description
            confidence := rec.confidence
            image := p.image })) ∧
    expand [⟨"Cooking", "r1", conf09⟩] PRODUCT_CATALOG =
      [⟨"Cooking", "Instant Pot Duo", 3900, "r1 - หม้อทำอาหารอเนกประสงค์",
        conf09, "https://picsum.photos/300/200?random=7"⟩,
       ⟨"Cooking", "Vitamix Blender", 15900, "r1 - เครื่องปั่นระดับมืออาชีพ",
        conf09, "https://picsum.photos/300/200?random=8"⟩,
       ⟨"Cooking", "Kitchen Scale Digital", 890, "r1 - เครื่องชั่งดิจิตอลแม่นยำสูง",
        conf09, "https://picsum.photos/300/200?random=9"⟩] := by
  refine ⟨fun catalog rec products h => ?_, by decide⟩
  unfold expandRec
  rw [h]
  rfl

/-- Witness for C3 at a concrete input: the Cooking recommendation and
the three Cooking catalog entries. -/
theorem C3_matched_category_expansion_inst :
    expandRec PRODUCT_CATALOG ⟨"Cooking", "r1", conf09⟩ =
      ([⟨"C001", "Instant Pot Duo", 3900, "หม้อทำอาหารอเนกประสงค์",
         "https://picsum.photos/300/200?random=7"⟩,
        ⟨"C002", "Vitamix Blender", 15900, "เครื่องปั่นระดับมืออาชีพ",
         "https://picsum.photos/300/200?random=8"⟩,
        ⟨"C003", "Kitchen Scale Digital", 890, "เครื่องชั่งดิจิตอลแม่นยำสูง",
         "https://picsum.photos/300/200?random=9"⟩] : List CatalogEntry).map
        (fun p => { category := "Cooking"
                    product := p.name
                    price := p.price
                    reason := "r1" ++ " - " ++ p.description
                    confidence := conf09
                    image := p.image }) :=
  C3_matched_category_expansion.1 PRODUCT_CATALOG ⟨"Cooking", "r1", conf09⟩ _
    (by decide)

/-- C4: every list the mapper returns is sorted by confidence
descending; concretely, with Cooking at 0.9 and Sports & Fitness at
0.95, all three Sports & Fitness items come before all three Cooking
items, with confidences 0.95, 0.95, 0.95, 0.9, 0.9, 0.9. -/
theorem C4_sorted_by_confidence_desc :
    (∀ (recs : List ProductRecommendation)
        (catalog : List (String × List CatalogEntry)),
        (expand recs catalog).Sorted confDesc) ∧
    (expand [⟨"Cooking", "ชอบทำอาหาร", conf09⟩,
             ⟨"Sports & Fitness", "ชอบออกกำลังกาย", conf095⟩]
        PRODUCT_CATALOG).map ProductDisplay.category =
      ["Sports & Fitness", "Sports & Fitness", "Sports & Fitness",
       "Cooking", "Cooking", "Cooking"] ∧
    (expand [⟨"Cooking", "ชอบทำอาหาร", conf09⟩,
             ⟨"Sports & Fitness", "ชอบออกกำลังกาย", conf095⟩]
        PRODUCT_CATALOG).map ProductDisplay.confidence =
      [conf095, conf095, conf095, conf09, conf09, conf09] :=
  ⟨fun _ _ => List.sorted_insertionSort confDesc _, by decide, by decide⟩

/-- C5: a recommendation whose category is not a catalog key
contributes no display items and raises no error; concretely, a
`Gardening` recommendation contributes the empty list, and the raw
JSON loop iteration on a `Gardening` element succeeds with the empty
list rather than signalling an exception. -/
theorem C5_unmatched_category_skipped :
    (∀ (catalog : List (String × List CatalogEntry))
        (rec : ProductRecommendation),
        catalogLookup catalog rec.category = none →
        expandRec catalog rec = []) ∧
    expandRec PRODUCT_CATALOG ⟨"Gardening", "ชอบปลูกต้นไม้", conf09⟩ = [] ∧
    expandJsonRec PRODUCT_CATALOG
      (Json.obj [("category", Json.str "Gardening"),
                 ("reason", Json.str "ชอบปลูกต้นไม้"),
                 ("confidence", Json.num conf09)]) = some [] := by
  refine ⟨fun catalog rec h => ?_, by decide, by decide⟩
  unfold expandRec
  rw [h]

/-- Witness for C5 at a concrete input: a category absent from the
fixed catalog. -/
theorem C5_unmatched_category_skipped_inst :
    expandRec PRODUCT_CATALOG ⟨"Travel", "ชอบเดินทาง", conf095⟩ = [] :=
  C5_unmatched_category_skipped.1 PRODUCT_CATALOG ⟨"Travel", "ชอบเดินทาง", conf095⟩
    (by decide)

/-- C6: a reply that is not valid JSON (or a transport error), and a
JSON reply without the `recommendations` key, both make the pipeline
return the single Failure value `none` — never a partially-parsed
list. -/
theorem C6_malformed_reply_is_failure :
    get_recommendations_with_products PRODUCT_CATALOG none = none ∧
    (∀ result : Json, result.getKey "recommendations" = none →
        get_recommendations_with_products PRODUCT_CATALOG (some result) = none) := by
  refine ⟨rfl, fun result h => ?_⟩
  simp only [get_recommendations_with_products, h]

/-- Witness for C6 at a concrete input: a JSON object reply carrying
only an `error` field. -/
theorem C6_malformed_reply_is_failure_inst :
    get_recommendations_with_products PRODUCT_CATALOG
      (some (Json.obj [("error", Json.str "rate limited")])) = none :=
  C6_malformed_reply_is_failure.2 (Json.obj [("error", Json.str "rate limited")])
    (by rfl)

/-- C7: when the submitted key fails `validate_api_key`, the
save-button handler changes nothing and makes no external call: no
client initialization, no connection-test round-trip. -/
theorem C7_invalid_format_no_external_call :
    ∀ (accept : String → Bool) (api_key : String) (s : SessionState),
      validate_api_key api_key = false →
      saveApiKeyClick accept api_key s = (s, []) := by
  intro accept api_key s h
  unfold saveApiKeyClick
  by_cases he : api_key = "" <;> simp [he, h]

/-- Witness for C7 at a concrete input: a key with the wrong start. -/
theorem C7_invalid_format_no_external_call_inst :
    saveApiKeyClick (fun _ => true) "not-a-valid-key"
      ⟨none, none⟩ = (⟨none, none⟩, []) :=
  C7_invalid_format_no_external_call (fun _ => true) "not-a-valid-key"
    ⟨none, none⟩ (by decide)

/-- C8: when the connection test fails, `init_openai_client` yields
the Failure value `None` and the session's `client` entry is left
exactly as it was — the handle is never cached. -/
theorem C8_failed_init_never_cached :
    ∀ (accept : String → Bool) (api_key : String) (s : SessionState),
      accept api_key = false →
      (init_openai_client accept
          { s with openai_api_key := some api_key }).1 = none ∧
      (saveApiKeyClick accept api_key s).1.client = s.client := by
  intro accept api_key s h
  constructor
  · unfold init_openai_client
    by_cases he : api_key = "" <;> simp [he, h]
  · unfold saveApiKeyClick
    by_cases he : api_key = ""
    · simp [he]
    · by_cases hv : validate_api_key api_key
      · simp [he, hv, init_openai_client, h]
      · simp [he, hv]

/-- Witness for C8 at a concrete input: a well-formatted key the
service rejects. -/
theorem C8_failed_init_never_cached_inst :
    (init_openai_client (fun _ => false)
        ⟨some "sk-abcdefghijklmnopqrst", none⟩).1 = none ∧
    (saveApiKeyClick (fun _ => false) "sk-abcdefghijklmnopqrst"
        ⟨none, none⟩).1.client = none :=
  C8_failed_init_never_cached (fun _ => false) "sk-abcdefghijklmnopqrst"
    ⟨none, none⟩ (by decide)

/-- C9: the confidence sort is stable — any two display items of equal
confidence that appear in a given order in the expansion (reply order
of the recommendations, catalog order within a category) appear in the
same order in the sorted output. -/
theorem C9_sort_is_stable :
    ∀ (recs : List ProductRecommendation)
      (catalog : List (String × List CatalogEntry)) (a b : ProductDisplay),
      a.confidence = b.confidence →
      List.Sublist [a, b] (preSortExpansion recs catalog) →
      List.Sublist [a, b] (expand recs catalog) := by
  intro recs catalog a b hconf hsub
  refine List.pair_sublist_insertionSort ?_ hsub
  show b.confidence ≤ a.confidence
  rw [hconf]

/-- Witness for C9 at a concrete input: a Cooking item and a
Photography item sharing confidence 0.9 stay in expansion order. -/
theorem C9_sort_is_stable_inst :
    List.Sublist
      [⟨"Cooking", "Instant Pot Duo", 3900, "r1 - หม้อทำอาหารอเนกประสงค์",
        conf09, "https://picsum.photos/300/200?random=7"⟩,
       ⟨"Photography", "Sony A7 III", 59900, "r2 - กล้อง Mirrorless ระดับมืออาชีพ",
        conf09, "https://picsum.photos/300/200?random=4"⟩]
      (expand [⟨"Cooking", "r1", conf09⟩, ⟨"Photography", "r2", conf09⟩]
        PRODUCT_CATALOG) :=
  C9_sort_is_stable [⟨"Cooking", "r1", conf09⟩, ⟨"Photography", "r2", conf09⟩]
    PRODUCT_CATALOG _ _ (by decide) (by decide)

/-- C10: confidence is never range-validated — every display item
derived from a recommendation carries that recommendation's confidence
unchanged, and a confidence outside `[0, 1]` is neither clamped nor
rejected but used as the sort key as-is (1.5 ranks above 0.5). -/
theorem C10_confidence_never_validated :
    (∀ (catalog : List (String × List CatalogEntry))
        (rec : ProductRecommendation) (item : ProductDisplay),
        item ∈ expandRec catalog rec → item.confidence = rec.confidence) ∧
    (expand [⟨"Cooking", "เกินช่วง", conf15⟩] PRODUCT_CATALOG).map
        ProductDisplay.confidence = [conf15, conf15, conf15] ∧
    (expand [⟨"Cooking", "a", conf05⟩, ⟨"Photography", "b", conf15⟩]
        PRODUCT_CATALOG).map ProductDisplay.confidence =
      [conf15, conf15, conf15, conf05, conf05, conf05] := by
  refine ⟨fun catalog rec item h => ?_, by decide, by decide⟩
  unfold expandRec at h
  cases hl : catalogLookup catalog rec.category with
  | none => rw [hl] at h; simp at h
  | some products =>
    rw [hl] at h
    obtain ⟨p, _, rfl⟩ := List.mem_map.mp h
    rfl

/-- Witness for C10 at a concrete input: the first display item built
from a Cooking recommendation with out-of-range confidence 1.5. -/
theorem C10_confidence_never_validated_inst :
    (⟨"Cooking", "Instant Pot Duo", 3900, "เกินช่วง - หม้อทำอาหารอเนกประสงค์",
      conf15, "https://picsum.photos/300/200?random=7"⟩ : ProductDisplay).confidence =
      (⟨"Cooking", "เกินช่วง", conf15⟩ : ProductRecommendation).confidence :=
  C10_confidence_never_validated.1 PRODUCT_CATALOG ⟨"Cooking", "เกินช่วง", conf15⟩ _
    (by decide)

/-- C1, counterexample to the claim as stated: on a valid reply whose
only category (`Gardening`) matches nothing, the pipeline returns the
successful empty list `some []`, yet the rendering decision on that
result is `unavailable` — exactly the same user-visible outcome as the
Failure path `none`, so the empty-list behavior is not distinct from
the Failure behavior. -/
theorem C1_empty_result_counterexample :
    get_recommendations_with_products PRODUCT_CATALOG (some gardeningReply) =
      some [] ∧
    renderDecision
      (get_recommendations_with_products PRODUCT_CATALOG (some gardeningReply)) =
      RenderOutcome.unavailable ∧
    renderDecision none = RenderOutcome.unavailable :=
  ⟨by decide, by decide, rfl⟩

/-- C1, amended: an empty recommendation result is a success at the
pipeline boundary — a valid reply with no catalog-matching category
yields `some []`, a value distinct from the Failure value `none` — but
the user-visible behavior is not distinct: `main`'s truthiness test
`if products:` shows the "recommendation unavailable" error exactly
when the result is `none` or the empty list. -/
theorem C1_empty_result_same_user_outcome :
    get_recommendations_with_products PRODUCT_CATALOG (some gardeningReply) =
      some [] ∧
    some ([] : List ProductDisplay) ≠ (none : Option (List ProductDisplay)) ∧
    (∀ products : Option (List ProductDisplay),
        renderDecision products = RenderOutcome.unavailable ↔
          products = none ∨ products = some []) := by
  refine ⟨by decide, by decide, fun products => ?_⟩
  match products with
  | none => simp [renderDecision]
  | some [] => simp [renderDecision]
  | some (p :: ps) => simp [renderDecision]
